import Mathlib

set_option maxRecDepth 8000

/-!
Verification development for the Direct Transport ES backend
(`src/main.py`, `src/schemas.py`).

Documents stored in the document store are modelled as association lists
from field names to a small dynamic value type `BVal`.  The store itself
is a list of documents in insertion order.  Machinery that lives in the
missing `database.py` (`get_documents`, `create_document`) is modelled
from the specification; everything else is translated directly from the
source files.
-/

/-- Dynamic values held in a stored document (the subset of BSON that the
backend ever produces or queries; the only array field the backend ever
writes or filters is `vehicle_types`, a list of strings, so array values
hold strings). -/
inductive BVal where
  | vStr (s : String)
  | vBool (b : Bool)
  | vNum (n : Int)
  | vList (l : List String)
  | vId (s : String)
  | vTime (t : Nat)
  | vNull
deriving DecidableEq, Repr

/-- A stored document: field names to values, in insertion order, keys
unique as in a Python dict. -/
abbrev Doc := List (String × BVal)

/-- First value bound to key `k`, as Python `doc.get(k)`. -/
def getField (d : Doc) (k : String) : Option BVal :=
  match d with
  | [] => none
  | (k', v) :: rest => if k' = k then some v else getField rest k

/-- Python dict assignment `d[k] = v`: replace in place if the key exists,
append otherwise. -/
def setField (d : Doc) (k : String) (v : BVal) : Doc :=
  match d with
  | [] => [(k, v)]
  | (k', v') :: rest => if k' = k then (k, v) :: rest else (k', v') :: setField rest k v

/-- Python dict `d.pop(k)`: drop the binding for `k` (documents have unique
keys, so dropping every binding is the same thing). -/
def removeField (d : Doc) (k : String) : Doc :=
  d.filter (fun kv => !(decide (kv.1 = k)))

/-- Python truthiness of a dynamic value, used by the `doc.get` guard in
the id-rewriting helper. -/
def BVal.truthy : BVal → Bool
  | .vStr s => !s.isEmpty
  | .vBool b => b
  | .vNum n => decide (n ≠ 0)
  | .vList l => !l.isEmpty
  | .vId _ => true
  | .vTime _ => true
  | .vNull => false

/-- Python `str(...)` on the values the helper ever feeds it (an ObjectId
renders as its 24-char lowercase hex). -/
def BVal.asStr : BVal → String
  | .vStr s => s
  | .vId s => s
  | .vNum n => toString n
  | .vTime t => toString t
  | .vBool b => toString b
  | .vList _ => ""
  | .vNull => "None"

/-- `_to_str_id` from `src/main.py`: replace the internal `_id` key with a
public string `id` field. -/
def to_str_id (d : Doc) : Doc :=
  match getField d "_id" with
  | some v => if v.truthy then setField (removeField d "_id") "id" (.vStr v.asStr) else d
  | none => d

/-- Python truthiness of an optional query parameter (`if province:`): an
absent value and the empty string are both falsy. -/
def strTruthy : Option String → Bool
  | none => false
  | some s => !s.isEmpty

/-- One field condition of a store query: plain equality or a one-level
membership test as produced by the `vehicle_types` filter. -/
inductive FieldCond where
  | feq (v : BVal)
  | fin (vs : List BVal)
deriving DecidableEq, Repr

/-- Boolean membership of a value in a list of values. -/
def bvalMem (x : BVal) (l : List BVal) : Bool :=
  l.any (fun y => decide (y = x))

/-- Boolean membership of a value in an array field (string elements). -/
def strListMem (v : BVal) (l : List String) : Bool :=
  l.any (fun s => decide (v = .vStr s))

/-- Store-side evaluation of one field condition against a document,
following the document-store matching rules the backend relies on:
equality against an array field also matches array membership, a missing
field only matches the null value. -/
def fieldCondHolds (d : Doc) (k : String) : FieldCond → Bool
  | .feq v =>
    match getField d k with
    | some (.vList l) => decide (v = .vList l) || strListMem v l
    | some w => decide (w = v)
    | none => decide (v = BVal.vNull)
  | .fin vs =>
    match getField d k with
    | some (.vList l) => vs.any (fun v => strListMem v l) || bvalMem (.vList l) vs
    | some w => bvalMem w vs
    | none => bvalMem .vNull vs

/-- The query dictionaries the endpoints build: a conjunction of field
conditions, plus an optional disjunction of field conditions (the `$or`
entry); an empty disjunction list stands for no `$or` entry at all. -/
structure Query where
  conds : List (String × FieldCond)
  orConds : List (String × FieldCond)
deriving Repr

/-- A document matches the query when every plain condition holds and, if
a disjunction is present, at least one of its branches holds. -/
def evalQuery (q : Query) (d : Doc) : Bool :=
  q.conds.all (fun kc => fieldCondHolds d kc.1 kc.2) &&
    (q.orConds.isEmpty || q.orConds.any (fun kc => fieldCondHolds d kc.1 kc.2))

/-- Modelled from the spec: `get_documents` lives in `database.py`, which
is not under `src/`; per the specification the store returns the
documents matching the query in insertion order, bounded to the page
limit. -/
def get_documents (coll : List Doc) (q : Query) (lim : Nat) : List Doc :=
  (coll.filter (evalQuery q)).take lim

/-- Modelled from the spec: `create_document` lives in `database.py`,
which is not under `src/`; per the specification it persists the document
as a new record and returns a newly generated opaque identifier (supplied
here as the `freshId` argument). -/
def create_document (coll : List Doc) (doc : Doc) (freshId : String) : String × List Doc :=
  (freshId, coll ++ [setField doc "_id" (.vId freshId)])

/-- The query dictionary built by `list_transportistas` in `src/main.py`. -/
def buildCarrierQuery (province vehicle_type : Option String) : Query :=
  { conds :=
      (match province with
       | some s => if s.isEmpty then [] else [("province", .feq (.vStr s))]
       | none => []) ++
      (match vehicle_type with
       | some s => if s.isEmpty then [] else [("vehicle_types", .fin [.vStr s])]
       | none => [])
    orConds := [] }

/-- The role test applied in Python after the store returns:
`d.get("role") == "transportista"`. -/
def isCarrierDoc (d : Doc) : Bool :=
  decide (getField d "role" = some (.vStr "transportista"))

/-- `list_transportistas` from `src/main.py`: query the shared user
collection with the optional province / vehicle-type filters, limit 50,
then keep only carrier-role documents and publish their ids. -/
def list_transportistas (store : List Doc) (province vehicle_type : Option String) : List Doc :=
  ((get_documents store (buildCarrierQuery province vehicle_type) 50).filter isCarrierDoc).map to_str_id

/-- The query dictionary built by `list_requests` in `src/main.py`. -/
def buildReqQuery (status city : Option String) : Query :=
  { conds :=
      (match status with
       | some s => if s.isEmpty then [] else [("status", .feq (.vStr s))]
       | none => [])
    orConds :=
      (match city with
       | some c => if c.isEmpty then [] else
          [("pickup_city", .feq (.vStr c)), ("dropoff_city", .feq (.vStr c))]
       | none => []) }

/-- `list_requests` from `src/main.py`: query the request collection with
the optional status / city filters, limit 100, and publish ids. -/
def list_requests (store : List Doc) (status city : Option String) : List Doc :=
  (get_documents store (buildReqQuery status city) 100).map to_str_id

/-- A hexadecimal digit, either case. -/
def isHexChar (c : Char) : Bool :=
  (decide ('0' ≤ c) && decide (c ≤ '9')) ||
  (decide ('a' ≤ c) && decide (c ≤ 'f')) ||
  (decide ('A' ≤ c) && decide (c ≤ 'F'))

/-- Whether `ObjectId(request_id)` succeeds on a string: exactly 24
hexadecimal characters. -/
def isValidObjectId (s : String) : Bool :=
  decide (s.length = 24) && s.data.all isHexChar

/-- Lowercase an ASCII character. -/
def lowerChar (c : Char) : Char :=
  if 'A' ≤ c ∧ c ≤ 'Z' then Char.ofNat (c.toNat + 32) else c

/-- Lowercase a string; an ObjectId parsed from hex renders back in
canonical lowercase, so a valid `request_id` resolves to this form. -/
def strLower (s : String) : String :=
  ⟨s.data.map lowerChar⟩

/-- The `StatusUpdate` payload from `src/schemas.py`.  The outer `Option`
on the optional fields records whether the caller supplied the field at
all (pydantic tracks this for `exclude_unset`); the inner `Option` is an
explicit null. -/
structure StatusUpdate where
  status : String
  last_location : Option (Option String) := none
  updated_by : Option (Option String) := none
  timestamp : Option (Option Nat) := none
deriving DecidableEq, Repr

/-- `update.model_dump(exclude_unset=True)`: the supplied fields in model
field order, explicit nulls included. -/
def StatusUpdate.dumpExcludeUnset (u : StatusUpdate) : List (String × BVal) :=
  [("status", .vStr u.status)] ++
  (match u.last_location with
   | some (some s) => [("last_location", .vStr s)]
   | some none => [("last_location", .vNull)]
   | none => []) ++
  (match u.updated_by with
   | some (some s) => [("updated_by", .vStr s)]
   | some none => [("updated_by", .vNull)]
   | none => []) ++
  (match u.timestamp with
   | some (some t) => [("timestamp", .vTime t)]
   | some none => [("timestamp", .vNull)]
   | none => [])

/-- The `$set` payload built by `update_request_status`: the supplied
non-null fields of the update, then the server-clock `updated_at` stamp. -/
def buildUpdateDoc (u : StatusUpdate) (serverTime : Nat) : List (String × BVal) :=
  setField ((u.dumpExcludeUnset).filter (fun kv => !(decide (kv.2 = BVal.vNull)))) "updated_at" (.vTime serverTime)

/-- Apply a `$set` payload to one document: each listed field is written
in order. -/
def applySet (d : Doc) (fields : List (String × BVal)) : Doc :=
  fields.foldl (fun acc kv => setField acc kv.1 kv.2) d

/-- `update_one` with an `_id` equality filter: rewrite the first (and,
ids being unique, only) matching document, reporting the matched count. -/
def updateOne (coll : List Doc) (oid : String) (fields : List (String × BVal)) : Nat × List Doc :=
  match coll with
  | [] => (0, [])
  | d :: ds =>
    if getField d "_id" = some (.vId oid) then (1, applySet d fields :: ds)
    else
      let r := updateOne ds oid fields
      (r.1, d :: r.2)

/-- `find_one` with an `_id` equality filter. -/
def find_one (coll : List Doc) (oid : String) : Option Doc :=
  match coll with
  | [] => none
  | d :: ds => if getField d "_id" = some (.vId oid) then some d else find_one ds oid

/-- The failure kinds of the status-update endpoint. -/
inductive UpdErr where
  | invalidArgument
  | notFound
deriving DecidableEq, Repr

instance instDecEqExcept {ε α : Type} [DecidableEq ε] [DecidableEq α] :
    DecidableEq (Except ε α) := fun a b =>
  match a, b with
  | .ok x, .ok y =>
    if h : x = y then isTrue (by rw [h]) else isFalse (fun hc => h (by cases hc; rfl))
  | .error x, .error y =>
    if h : x = y then isTrue (by rw [h]) else isFalse (fun hc => h (by cases hc; rfl))
  | .ok _, .error _ => isFalse (fun hc => Except.noConfusion hc)
  | .error _, .ok _ => isFalse (fun hc => Except.noConfusion hc)

/-- `update_request_status` from `src/main.py`, with a reachable store:
reject a malformed id, stamp `updated_at` from the server clock, apply
the `$set`, report not-found when nothing matched, otherwise read the
document back and publish its id.  The returned pair is the response and
the request collection after the call. -/
def update_request_status (store : List Doc) (request_id : String) (update : StatusUpdate) (serverTime : Nat) :
    Except UpdErr (Option Doc) × List Doc :=
  if isValidObjectId request_id then
    if (updateOne store (strLower request_id) (buildUpdateDoc update serverTime)).1 = 0 then
      (.error .notFound, (updateOne store (strLower request_id) (buildUpdateDoc update serverTime)).2)
    else
      (.ok ((find_one (updateOne store (strLower request_id) (buildUpdateDoc update serverTime)).2
              (strLower request_id)).map to_str_id),
       (updateOne store (strLower request_id) (buildUpdateDoc update serverTime)).2)
  else (.error .invalidArgument, store)

/-- A validation error: the offending field name and the violated
constraint, matching the per-field detail pydantic reports. -/
abbrev FieldErr := String × String

/-- The errors contributed by one field check. -/
def errOf {α : Type} : Except FieldErr α → List FieldErr
  | .error e => [e]
  | .ok _ => []

/-- The value of a successful field check (the default is never reached
when the collected error list is empty). -/
def valOf {α : Type} (dflt : α) : Except FieldErr α → α
  | .ok a => a
  | .error _ => dflt

/-- A required `str` field: must be present and a string; pydantic puts
no lower bound on its length. -/
def chkRequiredStr (r : Doc) (k : String) : Except FieldErr String :=
  match getField r k with
  | none => .error (k, "missing")
  | some (.vStr s) => .ok s
  | some _ => .error (k, "string_type")

/-- A required `str` field with `min_length` / `max_length` bounds. -/
def chkStrLen (r : Doc) (k : String) (lo hi : Nat) : Except FieldErr String :=
  match chkRequiredStr r k with
  | .ok s =>
    if s.length < lo then .error (k, "string_too_short")
    else if hi < s.length then .error (k, "string_too_long")
    else .ok s
  | .error e => .error e

/-- An `Optional[str]` field defaulting to `None`. -/
def chkOptionalStr (r : Doc) (k : String) : Except FieldErr (Option String) :=
  match getField r k with
  | none => .ok none
  | some .vNull => .ok none
  | some (.vStr s) => .ok (some s)
  | some _ => .error (k, "string_type")

/-- A required `Literal[...]` field. -/
def chkLiteral (r : Doc) (k : String) (allowed : List String) : Except FieldErr String :=
  match getField r k with
  | none => .error (k, "missing")
  | some (.vStr s) => if s ∈ allowed then .ok s else .error (k, "literal_error")
  | some _ => .error (k, "literal_error")

/-- A `Literal[...]` field with a declared default for the absent case. -/
def chkLiteralDefault (r : Doc) (k : String) (allowed : List String) (dflt : String) :
    Except FieldErr String :=
  match getField r k with
  | none => .ok dflt
  | some (.vStr s) => if s ∈ allowed then .ok s else .error (k, "literal_error")
  | some _ => .error (k, "literal_error")

/-- A `bool` field with a declared default for the absent case. -/
def chkBoolDefault (r : Doc) (k : String) (dflt : Bool) : Except FieldErr Bool :=
  match getField r k with
  | none => .ok dflt
  | some (.vBool b) => .ok b
  | some _ => .error (k, "bool_type")

/-- Shape of a syntactically plausible email address; approximates the
external email-validator behind `EmailStr` (one `@`, non-empty local and
domain parts, dotted domain). -/
def emailOk (s : String) : Bool :=
  match s.splitOn "@" with
  | [l1, d1] => !l1.isEmpty && !d1.isEmpty && d1.contains '.'
  | _ => false

/-- An `Optional[EmailStr]` field. -/
def chkOptionalEmail (r : Doc) (k : String) : Except FieldErr (Option String) :=
  match chkOptionalStr r k with
  | .ok (some s) => if emailOk s then .ok (some s) else .error (k, "value_error")
  | .ok none => .ok none
  | .error e => .error e

/-- An `Optional[List[str]]` field. -/
def chkOptionalStrList (r : Doc) (k : String) : Except FieldErr (Option (List String)) :=
  match getField r k with
  | none => .ok none
  | some .vNull => .ok none
  | some (.vList l) => .ok (some l)
  | some _ => .error (k, "list_type")

/-- The `rating` field: optional number within `[0, 5]` (numbers are kept
integral in this model; no claim depends on fractional ratings). -/
def chkRatingField (r : Doc) (k : String) : Except FieldErr (Option Int) :=
  match getField r k with
  | none => .ok none
  | some .vNull => .ok none
  | some (.vNum n) =>
    if n < 0 then .error (k, "greater_than_equal")
    else if 5 < n then .error (k, "less_than_equal")
    else .ok (some n)
  | some _ => .error (k, "float_type")

/-- The valid `role` values for `TransportUser`. -/
def validRoles : List String := ["cliente", "transportista"]

/-- The five valid `status` values for `TransportRequest`. -/
def validStatuses : List String :=
  ["pendiente", "asignado", "en_ruta", "entregado", "cancelado"]

/-- The validated `TransportUser` entity from `src/schemas.py`. -/
structure TransportUser where
  role : String
  name : String
  email : Option String
  phone : String
  province : Option String
  vehicle_types : Option (List String)
  whatsapp_number : Option String
  rating : Option Int
  is_active : Bool
deriving DecidableEq, Repr

/-- All field errors of a raw `TransportUser` payload, in field order;
pydantic reports every violated field, not only the first. -/
def tuErrors (r : Doc) : List FieldErr :=
  errOf (chkLiteral r "role" validRoles) ++
  errOf (chkStrLen r "name" 2 120) ++
  errOf (chkOptionalEmail r "email") ++
  errOf (chkStrLen r "phone" 7 20) ++
  errOf (chkOptionalStr r "province") ++
  errOf (chkOptionalStrList r "vehicle_types") ++
  errOf (chkOptionalStr r "whatsapp_number") ++
  errOf (chkRatingField r "rating") ++
  errOf (chkBoolDefault r "is_active" true)

/-- Validation of a raw `TransportUser` payload. -/
def validateTransportUser (r : Doc) : Except (List FieldErr) TransportUser :=
  if tuErrors r = [] then
    .ok { role := valOf "" (chkLiteral r "role" validRoles)
          name := valOf "" (chkStrLen r "name" 2 120)
          email := valOf none (chkOptionalEmail r "email")
          phone := valOf "" (chkStrLen r "phone" 7 20)
          province := valOf none (chkOptionalStr r "province")
          vehicle_types := valOf none (chkOptionalStrList r "vehicle_types")
          whatsapp_number := valOf none (chkOptionalStr r "whatsapp_number")
          rating := valOf none (chkRatingField r "rating")
          is_active := valOf true (chkBoolDefault r "is_active" true) }
  else .error (tuErrors r)

/-- The validated `TransportRequest` entity from `src/schemas.py`. -/
structure TransportRequest where
  customer_id : Option String
  pickup_address : String
  pickup_city : String
  dropoff_address : String
  dropoff_city : String
  date_iso : String
  item_type : String
  size : String
  notes : Option String
  whatsapp_number : Option String
  status : String
deriving DecidableEq, Repr

/-- All field errors of a raw `TransportRequest` payload, in field order. -/
def trErrors (r : Doc) : List FieldErr :=
  errOf (chkOptionalStr r "customer_id") ++
  errOf (chkRequiredStr r "pickup_address") ++
  errOf (chkRequiredStr r "pickup_city") ++
  errOf (chkRequiredStr r "dropoff_address") ++
  errOf (chkRequiredStr r "dropoff_city") ++
  errOf (chkRequiredStr r "date_iso") ++
  errOf (chkRequiredStr r "item_type") ++
  errOf (chkRequiredStr r "size") ++
  errOf (chkOptionalStr r "notes") ++
  errOf (chkOptionalStr r "whatsapp_number") ++
  errOf (chkLiteralDefault r "status" validStatuses "pendiente")

/-- Validation of a raw `TransportRequest` payload. -/
def validateTransportRequest (r : Doc) : Except (List FieldErr) TransportRequest :=
  if trErrors r = [] then
    .ok { customer_id := valOf none (chkOptionalStr r "customer_id")
          pickup_address := valOf "" (chkRequiredStr r "pickup_address")
          pickup_city := valOf "" (chkRequiredStr r "pickup_city")
          dropoff_address := valOf "" (chkRequiredStr r "dropoff_address")
          dropoff_city := valOf "" (chkRequiredStr r "dropoff_city")
          date_iso := valOf "" (chkRequiredStr r "date_iso")
          item_type := valOf "" (chkRequiredStr r "item_type")
          size := valOf "" (chkRequiredStr r "size")
          notes := valOf none (chkOptionalStr r "notes")
          whatsapp_number := valOf none (chkOptionalStr r "whatsapp_number")
          status := valOf "pendiente" (chkLiteralDefault r "status" validStatuses "pendiente") }
  else .error (trErrors r)

/-- An optional string rendered into a stored document (absent values are
persisted as null by `model_dump`). -/
def optStrV : Option String → BVal
  | some s => .vStr s
  | none => .vNull

/-- `model_dump` of a validated `TransportRequest`, in field order. -/
def reqToDoc (q : TransportRequest) : Doc :=
  [("customer_id", optStrV q.customer_id),
   ("pickup_address", .vStr q.pickup_address),
   ("pickup_city", .vStr q.pickup_city),
   ("dropoff_address", .vStr q.dropoff_address),
   ("dropoff_city", .vStr q.dropoff_city),
   ("date_iso", .vStr q.date_iso),
   ("item_type", .vStr q.item_type),
   ("size", .vStr q.size),
   ("notes", optStrV q.notes),
   ("whatsapp_number", optStrV q.whatsapp_number),
   ("status", .vStr q.status)]

/-- `create_request` from `src/main.py`: persist a validated request and
return the new opaque identifier. -/
def create_request (store : List Doc) (req : TransportRequest) (freshId : String) :
    String × List Doc :=
  create_document store (reqToDoc req) freshId

/-- `str.replace(pat, "")` for a single-character pattern: drop every
occurrence of that character. -/
def removeAllChar (s : String) (c : Char) : String :=
  ⟨s.data.filter (fun ch => !(decide (ch = c)))⟩

/-- UTF-8 encoding of one character. -/
def utf8Bytes (c : Char) : List Nat :=
  let n := c.toNat
  if n < 128 then [n]
  else if n < 2048 then [192 + n / 64, 128 + n % 64]
  else if n < 65536 then [224 + n / 4096, 128 + (n / 64) % 64, 128 + n % 64]
  else [240 + n / 262144, 128 + (n / 4096) % 64, 128 + (n / 64) % 64, 128 + n % 64]

/-- Bytes `urllib.parse.quote` leaves unescaped with the default
`safe="/"`: ASCII letters, digits, underscore, dot, hyphen, tilde and the
slash. -/
def isSafeByte (b : Nat) : Bool :=
  (decide (65 ≤ b) && decide (b ≤ 90)) ||
  (decide (97 ≤ b) && decide (b ≤ 122)) ||
  (decide (48 ≤ b) && decide (b ≤ 57)) ||
  decide (b = 95) || decide (b = 46) || decide (b = 45) ||
  decide (b = 126) || decide (b = 47)

/-- Uppercase hexadecimal digit of a value below 16. -/
def hexDigitChar (n : Nat) : Char :=
  if n < 10 then Char.ofNat (48 + n) else Char.ofNat (55 + n)

/-- Percent-escape of one UTF-8 byte. -/
def encByte (b : Nat) : List Char :=
  if isSafeByte b then [Char.ofNat b] else ['%', hexDigitChar (b / 16), hexDigitChar (b % 16)]

/-- `urllib.parse.quote` with the default safe set: the string is UTF-8
encoded and every unsafe byte percent-escaped in uppercase hex. -/
def pyQuote (s : String) : String :=
  ⟨(((s.data.map utf8Bytes).flatten).map encByte).flatten⟩

/-- The message template interpolated by `whatsapp_link`. -/
def waMessage (name item pickup dropoff date : String) : String :=
  "Hola, soy " ++ name ++ ". Quiero enviar " ++ item ++ " de " ++ pickup ++
  " a " ++ dropoff ++ " el " ++ date ++ ". ¿Disponibilidad?"

/-- `whatsapp_link` from `src/main.py`: the fixed base, the phone with
plus signs and spaces removed, and the percent-encoded message. -/
def whatsapp_link (name phone pickup dropoff date item : String) : String :=
  ("https://wa.me/" ++ removeAllChar (removeAllChar phone '+') ' ') ++ "?text=" ++
    pyQuote (waMessage name item pickup dropoff date)

/-- The phone normalization the specification describes: every non-digit
character stripped. -/
def digitsOnly (s : String) : String :=
  ⟨s.data.filter Char.isDigit⟩

/-- The link the specification describes, with the fully digit-stripped
phone; compared against the implementation. -/
def specWhatsappUrl (name phone pickup dropoff date item : String) : String :=
  ("https://wa.me/" ++ digitsOnly phone) ++ "?text=" ++
    pyQuote (waMessage name item pickup dropoff date)

/-! ### Lemmas about documents -/

theorem getField_setField_self (d : Doc) (k : String) (v : BVal) :
    getField (setField d k v) k = some v := by
  induction d with
  | nil => simp [getField, setField]
  | cons hd tl ih =>
    obtain ⟨k1, v1⟩ := hd
    by_cases h : k1 = k <;> simp [getField, setField, h, ih]

theorem getField_setField_ne (d : Doc) (k k' : String) (v : BVal) (h : k' ≠ k) :
    getField (setField d k v) k' = getField d k' := by
  have h' : k ≠ k' := Ne.symm h
  induction d with
  | nil => simp [getField, setField, h']
  | cons hd tl ih =>
    obtain ⟨k1, v1⟩ := hd
    by_cases h1 : k1 = k
    · subst h1
      simp [getField, setField, h']
    · simp [getField, setField, h1, ih]

theorem getField_removeField_self (d : Doc) (k : String) :
    getField (removeField d k) k = none := by
  induction d with
  | nil => simp [getField, removeField]
  | cons hd tl ih =>
    obtain ⟨k1, v1⟩ := hd
    by_cases h : k1 = k
    · simpa [removeField, List.filter_cons, h] using ih
    · simpa [removeField, List.filter_cons, h, getField] using ih

theorem getField_removeField_ne (d : Doc) (k k' : String) (h : k' ≠ k) :
    getField (removeField d k) k' = getField d k' := by
  induction d with
  | nil => simp [getField, removeField]
  | cons hd tl ih =>
    obtain ⟨k1, v1⟩ := hd
    by_cases h1 : k1 = k
    · subst h1
      have h2 : ¬(k1 = k') := fun hc => h (hc ▸ rfl)
      simpa [removeField, List.filter_cons, getField, h2] using ih
    · by_cases h2 : k1 = k'
      · simp [removeField, List.filter_cons, getField, h1, h2, h]
      · simpa [removeField, List.filter_cons, getField, h1, h2] using ih

theorem mem_keys_setField (d : Doc) (k k' : String) (v : BVal)
    (h : k' ∈ (setField d k v).map Prod.fst) : k' = k ∨ k' ∈ d.map Prod.fst := by
  induction d with
  | nil =>
    simp only [setField, List.map_cons, List.map_nil, List.mem_singleton] at h
    exact Or.inl h
  | cons hd tl ih =>
    obtain ⟨k1, v1⟩ := hd
    by_cases h1 : k1 = k
    · simp only [setField, if_pos h1, List.map_cons, List.mem_cons] at h
      rcases h with h' | h'
      · exact Or.inl h'
      · exact Or.inr (by simp [h'])
    · simp only [setField, if_neg h1, List.map_cons, List.mem_cons] at h
      rcases h with h' | h'
      · exact Or.inr (by simp [h'])
      · rcases ih h' with h'' | h''
        · exact Or.inl h''
        · exact Or.inr (by simp [h''])

theorem setField_of_notmem (d : Doc) (k : String) (v : BVal)
    (h : k ∉ d.map Prod.fst) : setField d k v = d ++ [(k, v)] := by
  induction d with
  | nil => simp [setField]
  | cons hd tl ih =>
    obtain ⟨k1, v1⟩ := hd
    simp only [List.map_cons, List.mem_cons] at h
    push_neg at h
    have h1 : ¬(k1 = k) := fun hc => h.1 hc.symm
    simp [setField, h1, ih h.2]

theorem applySet_append (d : Doc) (fs gs : List (String × BVal)) :
    applySet d (fs ++ gs) = applySet (applySet d fs) gs := by
  simp [applySet, List.foldl_append]

theorem getField_applySet_notmem (fs : List (String × BVal)) (d : Doc) (k : String)
    (h : k ∉ fs.map Prod.fst) : getField (applySet d fs) k = getField d k := by
  induction fs generalizing d with
  | nil => simp [applySet]
  | cons hd tl ih =>
    obtain ⟨k1, v1⟩ := hd
    simp only [List.map_cons, List.mem_cons] at h
    push_neg at h
    show getField (applySet (setField d k1 v1) tl) k = getField d k
    rw [ih _ h.2, getField_setField_ne _ _ _ _ h.1]

theorem dump_keys (u : StatusUpdate) (k : String)
    (h : k ∈ (u.dumpExcludeUnset).map Prod.fst) :
    k ∈ ["status", "last_location", "updated_by", "timestamp"] := by
  obtain ⟨s, ll, ub, ts⟩ := u
  rcases ll with _ | ⟨_ | _⟩ <;> rcases ub with _ | ⟨_ | _⟩ <;> rcases ts with _ | ⟨_ | _⟩ <;>
    simp_all [StatusUpdate.dumpExcludeUnset] <;> tauto

theorem buildUpdateDoc_keys (u : StatusUpdate) (t : Nat) (k : String)
    (h : k ∈ (buildUpdateDoc u t).map Prod.fst) :
    k ∈ ["status", "last_location", "updated_by", "timestamp", "updated_at"] := by
  unfold buildUpdateDoc at h
  rcases mem_keys_setField _ _ _ _ h with h' | h'
  · simp [h']
  · obtain ⟨⟨k2, v2⟩, hmem, rfl⟩ := List.mem_map.1 h'
    have := dump_keys u _ (List.mem_map.2 ⟨_, (List.mem_filter.1 hmem).1, rfl⟩)
    simp_all
    tauto

theorem getField_applySet_build_id (u : StatusUpdate) (t : Nat) (d : Doc) :
    getField (applySet d (buildUpdateDoc u t)) "_id" = getField d "_id" := by
  refine getField_applySet_notmem _ _ _ (fun h => ?_)
  have := buildUpdateDoc_keys u t _ h
  simp at this

theorem getField_applySet_build_updated_at (u : StatusUpdate) (t : Nat) (d : Doc) :
    getField (applySet d (buildUpdateDoc u t)) "updated_at" = some (.vTime t) := by
  have hnm : "updated_at" ∉
      ((u.dumpExcludeUnset).filter (fun kv => !(decide (kv.2 = BVal.vNull)))).map Prod.fst := by
    intro h
    obtain ⟨⟨k2, v2⟩, hmem, hk⟩ := List.mem_map.1 h
    have := dump_keys u _ (List.mem_map.2 ⟨_, (List.mem_filter.1 hmem).1, hk⟩)
    simp at this
  rw [buildUpdateDoc, setField_of_notmem _ _ _ hnm, applySet_append]
  show getField (setField _ "updated_at" (.vTime t)) "updated_at" = _
  exact getField_setField_self _ _ _

theorem buildUpdateDoc_status_only (s : String) (t : Nat) :
    buildUpdateDoc ⟨s, none, none, none⟩ t = [("status", .vStr s), ("updated_at", .vTime t)] := by
  simp [buildUpdateDoc, StatusUpdate.dumpExcludeUnset, setField]

/-! ### Lemmas about the store operations -/

theorem find_one_eq_none_iff (coll : List Doc) (oid : String) :
    find_one coll oid = none ↔ ∀ d ∈ coll, ¬(getField d "_id" = some (.vId oid)) := by
  induction coll with
  | nil => simp [find_one]
  | cons d ds ih =>
    by_cases h : getField d "_id" = some (.vId oid) <;> simp [find_one, h, ih]

theorem find_one_some_id (coll : List Doc) (oid : String) (d : Doc)
    (h : find_one coll oid = some d) : getField d "_id" = some (.vId oid) := by
  induction coll with
  | nil => simp [find_one] at h
  | cons d1 ds ih =>
    by_cases h1 : getField d1 "_id" = some (.vId oid)
    · simp [find_one, h1] at h
      subst h
      exact h1
    · simp [find_one, h1] at h
      exact ih h

theorem updateOne_of_none (coll : List Doc) (oid : String) (f : List (String × BVal))
    (h : find_one coll oid = none) : updateOne coll oid f = (0, coll) := by
  induction coll with
  | nil => simp [updateOne]
  | cons d ds ih =>
    by_cases h1 : getField d "_id" = some (.vId oid)
    · simp [find_one, h1] at h
    · simp [find_one, h1] at h
      simp [updateOne, h1, ih h]

theorem updateOne_zero (coll : List Doc) (oid : String) (f : List (String × BVal))
    (h : (updateOne coll oid f).1 = 0) :
    (updateOne coll oid f).2 = coll ∧ find_one coll oid = none := by
  induction coll with
  | nil => simp [updateOne, find_one]
  | cons d ds ih =>
    by_cases h1 : getField d "_id" = some (.vId oid)
    · simp [updateOne, h1] at h
    · simp only [updateOne, if_neg h1] at h ⊢
      obtain ⟨h2, h3⟩ := ih h
      simp [find_one, h1, h2, h3]

theorem updateOne_found (coll : List Doc) (oid : String) (f : List (String × BVal)) (d0 : Doc)
    (h : find_one coll oid = some d0)
    (hid : getField (applySet d0 f) "_id" = some (.vId oid)) :
    (updateOne coll oid f).1 = 1 ∧
      find_one (updateOne coll oid f).2 oid = some (applySet d0 f) := by
  induction coll with
  | nil => simp [find_one] at h
  | cons d ds ih =>
    by_cases h1 : getField d "_id" = some (.vId oid)
    · simp [find_one, h1] at h
      subst h
      simp [updateOne, h1, find_one, hid]
    · simp only [find_one, if_neg h1] at h
      obtain ⟨h2, h3⟩ := ih h
      simp [updateOne, h1, find_one, h2, h3]

/-! ### Lemmas about the public id rewriting -/

theorem getField_to_str_id_ne (d : Doc) (k : String) (h1 : k ≠ "_id") (h2 : k ≠ "id") :
    getField (to_str_id d) k = getField d k := by
  unfold to_str_id
  rcases hg : getField d "_id" with _ | v
  · rfl
  · by_cases ht : v.truthy
    · simp only [ht, if_pos]
      rw [getField_setField_ne _ _ _ _ h2, getField_removeField_ne _ _ _ h1]
    · simp [ht]

theorem to_str_id_of_vId (d : Doc) (s : String) (h : getField d "_id" = some (.vId s)) :
    getField (to_str_id d) "id" = some (.vStr s) ∧ getField (to_str_id d) "_id" = none := by
  unfold to_str_id
  rw [h]
  simp only [BVal.truthy, if_pos]
  constructor
  · simpa [BVal.asStr] using getField_setField_self (removeField d "_id") "id" (.vStr s)
  · rw [getField_setField_ne _ _ _ _ (by decide)]
    exact getField_removeField_self d "_id"

/-! ### Behaviour of the status-update endpoint -/

theorem urs_invalid (store : List Doc) (rid : String) (u : StatusUpdate) (t : Nat)
    (h : isValidObjectId rid = false) :
    update_request_status store rid u t = (.error .invalidArgument, store) := by
  simp [update_request_status, h]

theorem urs_notFound (store : List Doc) (rid : String) (u : StatusUpdate) (t : Nat)
    (hv : isValidObjectId rid = true) (h : find_one store (strLower rid) = none) :
    update_request_status store rid u t = (.error .notFound, store) := by
  simp [update_request_status, hv, updateOne_of_none _ _ _ h]

theorem urs_success (store : List Doc) (rid : String) (u : StatusUpdate) (t : Nat) (d0 : Doc)
    (hv : isValidObjectId rid = true) (h : find_one store (strLower rid) = some d0) :
    (update_request_status store rid u t).1 =
        .ok (some (to_str_id (applySet d0 (buildUpdateDoc u t)))) ∧
      find_one (update_request_status store rid u t).2 (strLower rid) =
        some (applySet d0 (buildUpdateDoc u t)) := by
  have hid : getField (applySet d0 (buildUpdateDoc u t)) "_id" = some (.vId (strLower rid)) := by
    rw [getField_applySet_build_id]
    exact find_one_some_id _ _ _ h
  obtain ⟨h1, h2⟩ := updateOne_found store (strLower rid) (buildUpdateDoc u t) d0 h hid
  simp [update_request_status, hv, h1, h2]

/-! ### Bridging the built store queries to the spec-side filter predicates -/

/-- A field value that is not an array (the shape validated user and
request documents always have outside `vehicle_types`). -/
def notListVal : Option BVal → Bool
  | some (.vList _) => false
  | _ => true

/-- The shapes `vehicle_types` can have on a validated user document:
absent, null or a string array. -/
def vtShape : Option BVal → Bool
  | none => true
  | some .vNull => true
  | some (.vList _) => true
  | some _ => false

/-- Field shapes every validated user document satisfies, as far as the
carrier filters look. -/
def userFieldShapes (d : Doc) : Bool :=
  notListVal (getField d "province") && vtShape (getField d "vehicle_types")

/-- Field shapes every validated request document satisfies, as far as
the request filters look. -/
def reqFieldShapes (d : Doc) : Bool :=
  notListVal (getField d "status") && notListVal (getField d "pickup_city") &&
    notListVal (getField d "dropoff_city")

/-- The carrier filter as the spec words it: exact province match and
vehicle-type membership in `vehicle_types`, each applied only when the
parameter is given (non-empty). -/
def specCarrierMatch (province vehicle_type : Option String) (d : Doc) : Bool :=
  (match province with
   | some s => if s.isEmpty then true else decide (getField d "province" = some (.vStr s))
   | none => true) &&
  (match vehicle_type with
   | some s =>
     if s.isEmpty then true else
       match getField d "vehicle_types" with
       | some (.vList l) => decide (s ∈ l)
       | _ => false
   | none => true)

/-- The request filter as the spec words it: exact status match when
given, and the city matching either `pickup_city` or `dropoff_city` when
given, combined conjunctively. -/
def specReqMatch (status city : Option String) (d : Doc) : Bool :=
  (match status with
   | some s => if s.isEmpty then true else decide (getField d "status" = some (.vStr s))
   | none => true) &&
  (match city with
   | some c =>
     if c.isEmpty then true else
       decide (getField d "pickup_city" = some (.vStr c)) ||
         decide (getField d "dropoff_city" = some (.vStr c))
   | none => true)

theorem any_eq_decide_mem (s : String) (l : List String) :
    (l.any fun x => decide (s = x)) = decide (s ∈ l) := by
  rw [Bool.eq_iff_iff]
  simp [List.any_eq_true]

theorem feq_bridge (d : Doc) (k s : String) (h : notListVal (getField d k) = true) :
    fieldCondHolds d k (.feq (.vStr s)) = decide (getField d k = some (.vStr s)) := by
  rcases hg : getField d k with _ | w
  · simp [fieldCondHolds, hg]
  · rw [hg] at h
    cases w <;> simp_all [fieldCondHolds, notListVal]

theorem fin_bridge (d : Doc) (k s : String) (h : vtShape (getField d k) = true) :
    fieldCondHolds d k (.fin [.vStr s]) =
      (match getField d k with
       | some (.vList l) => decide (s ∈ l)
       | _ => false) := by
  rcases hg : getField d k with _ | w
  · simp [fieldCondHolds, hg, bvalMem]
  · rw [hg] at h
    cases w <;>
      simp_all [fieldCondHolds, vtShape, bvalMem, strListMem, any_eq_decide_mem]

theorem carrierQuery_bridge (province vehicle_type : Option String) (d : Doc)
    (h : userFieldShapes d = true) :
    evalQuery (buildCarrierQuery province vehicle_type) d = specCarrierMatch province vehicle_type d := by
  rw [userFieldShapes, Bool.and_eq_true] at h
  obtain ⟨h1, h2⟩ := h
  rcases province with _ | s <;> rcases vehicle_type with _ | s2
  · simp [evalQuery, buildCarrierQuery, specCarrierMatch]
  · by_cases he : s2.isEmpty <;>
      simp [evalQuery, buildCarrierQuery, specCarrierMatch, he, fin_bridge d _ s2 h2]
  · by_cases he : s.isEmpty <;>
      simp [evalQuery, buildCarrierQuery, specCarrierMatch, he, feq_bridge d _ s h1]
  · by_cases he : s.isEmpty <;> by_cases he2 : s2.isEmpty <;>
      simp [evalQuery, buildCarrierQuery, specCarrierMatch, he, he2,
        feq_bridge d _ s h1, fin_bridge d _ s2 h2]

theorem reqQuery_bridge (status city : Option String) (d : Doc)
    (h : reqFieldShapes d = true) :
    evalQuery (buildReqQuery status city) d = specReqMatch status city d := by
  rw [reqFieldShapes, Bool.and_eq_true, Bool.and_eq_true] at h
  obtain ⟨⟨h1, h2⟩, h3⟩ := h
  rcases status with _ | s <;> rcases city with _ | c
  · simp [evalQuery, buildReqQuery, specReqMatch]
  · by_cases he : c.isEmpty <;>
      simp [evalQuery, buildReqQuery, specReqMatch, he,
        feq_bridge d _ c h2, feq_bridge d _ c h3]
  · by_cases he : s.isEmpty <;>
      simp [evalQuery, buildReqQuery, specReqMatch, he, feq_bridge d _ s h1]
  · by_cases he : s.isEmpty <;> by_cases he2 : c.isEmpty <;>
      simp [evalQuery, buildReqQuery, specReqMatch, he, he2,
        feq_bridge d _ s h1, feq_bridge d _ c h2, feq_bridge d _ c h3]

theorem filterCongrOn {α : Type} (p q : α → Bool) (l : List α)
    (h : ∀ a ∈ l, p a = q a) : l.filter p = l.filter q := by
  induction l with
  | nil => rfl
  | cons a tl ih =>
    have ha := h a (by simp)
    simp only [List.filter_cons, ha]
    rw [ih (fun x hx => h x (by simp [hx]))]

/-! ### The claims -/

/-- C1, amended: the page of 50 is cut before the role filter, so over
any stored user collection with validated field shapes, ListCarriers
returns exactly the carrier-role documents among the first 50 documents
matching the given province / vehicle-type filters (not among all
matches), and never returns a document whose role is not carrier. -/
theorem C1_carriers_spec (store : List Doc) (province vehicle_type : Option String)
    (hs : ∀ d ∈ store, userFieldShapes d = true) :
    list_transportistas store province vehicle_type =
        (((store.filter (specCarrierMatch province vehicle_type)).take 50).filter
          isCarrierDoc).map to_str_id ∧
      ∀ d ∈ list_transportistas store province vehicle_type,
        getField d "role" = some (.vStr "transportista") := by
  have hf : store.filter (evalQuery (buildCarrierQuery province vehicle_type)) =
      store.filter (specCarrierMatch province vehicle_type) :=
    filterCongrOn _ _ _ (fun d hd => carrierQuery_bridge province vehicle_type d (hs d hd))
  constructor
  · simp [list_transportistas, get_documents, hf]
  · intro d hd
    simp only [list_transportistas, get_documents] at hd
    obtain ⟨d', hd', rfl⟩ := List.mem_map.1 hd
    have hc : isCarrierDoc d' = true := (List.mem_filter.1 hd').2
    rw [isCarrierDoc] at hc
    rw [getField_to_str_id_ne _ _ (by decide) (by decide)]
    exact of_decide_eq_true hc

/-- Witness for C1: a concrete one-carrier store listed without filters. -/
theorem C1_carriers_spec_witness :
    list_transportistas [[("role", BVal.vStr "transportista"), ("province", BVal.vStr "Madrid")]]
        none none =
      ((([[("role", BVal.vStr "transportista"), ("province", BVal.vStr "Madrid")]].filter
          (specCarrierMatch none none)).take 50).filter isCarrierDoc).map to_str_id :=
  (C1_carriers_spec [[("role", BVal.vStr "transportista"), ("province", BVal.vStr "Madrid")]]
    none none (by decide)).1

/-- Counterexample to C1 as stated: with 50 customer documents ahead of
one carrier in the shared collection and no filters given, the single
carrier (well within a 50-document page) is not returned at all, because
the implementation truncates to 50 documents before applying the role
predicate. -/
theorem C1_counterexample :
    [("role", BVal.vStr "transportista")] ∈
        (List.replicate 50 [("role", BVal.vStr "cliente")] ++
          [[("role", BVal.vStr "transportista")]]) ∧
      isCarrierDoc [("role", BVal.vStr "transportista")] = true ∧
      specCarrierMatch none none [("role", BVal.vStr "transportista")] = true ∧
      ((List.replicate 50 [("role", BVal.vStr "cliente")] ++
          [[("role", BVal.vStr "transportista")]]).filter isCarrierDoc).length = 1 ∧
      list_transportistas (List.replicate 50 [("role", BVal.vStr "cliente")] ++
          [[("role", BVal.vStr "transportista")]]) none none = [] := by
  decide

/-- C6: over any stored request collection with validated field shapes,
ListRequests returns exactly the first at-most-100 stored request
documents matching the exact status filter and the pickup-or-dropoff
city filter, conjunctively combined, each applied only when given; with
no filters every document matches. -/
theorem C6_list_requests_spec (store : List Doc) (status city : Option String)
    (hs : ∀ d ∈ store, reqFieldShapes d = true) :
    list_requests store status city =
      ((store.filter (specReqMatch status city)).take 100).map to_str_id := by
  have hf : store.filter (evalQuery (buildReqQuery status city)) =
      store.filter (specReqMatch status city) :=
    filterCongrOn _ _ _ (fun d hd => reqQuery_bridge status city d (hs d hd))
  simp [list_requests, get_documents, hf]

/-- Witness for C6: a concrete store filtered by status and city. -/
theorem C6_list_requests_spec_witness :
    list_requests [[("status", BVal.vStr "pendiente"), ("pickup_city", BVal.vStr "Madrid"),
        ("dropoff_city", BVal.vStr "Valencia")]] (some "pendiente") (some "Madrid") =
      (([[("status", BVal.vStr "pendiente"), ("pickup_city", BVal.vStr "Madrid"),
          ("dropoff_city", BVal.vStr "Valencia")]].filter
        (specReqMatch (some "pendiente") (some "Madrid"))).take 100).map to_str_id :=
  C6_list_requests_spec [[("status", BVal.vStr "pendiente"), ("pickup_city", BVal.vStr "Madrid"),
    ("dropoff_city", BVal.vStr "Valencia")]] (some "pendiente") (some "Madrid") (by decide)

/-- C2: with a reachable store, the status update fails with
InvalidArgument exactly when the id is malformed, fails with NotFound
exactly when the id is well-formed but matches no stored request, and
otherwise succeeds, returning the fully updated document carrying the
public `id` field in place of the storage key. -/
theorem C2_update_errors (store : List Doc) (rid : String) (u : StatusUpdate) (t : Nat) :
    ((update_request_status store rid u t).1 = .error .invalidArgument ↔
        isValidObjectId rid = false) ∧
      ((update_request_status store rid u t).1 = .error .notFound ↔
        (isValidObjectId rid = true ∧ find_one store (strLower rid) = none)) ∧
      (∀ d0, isValidObjectId rid = true → find_one store (strLower rid) = some d0 →
        (update_request_status store rid u t).1 =
            .ok (some (to_str_id (applySet d0 (buildUpdateDoc u t)))) ∧
          getField (to_str_id (applySet d0 (buildUpdateDoc u t))) "id" =
            some (.vStr (strLower rid)) ∧
          getField (to_str_id (applySet d0 (buildUpdateDoc u t))) "_id" = none) := by
  cases hv : isValidObjectId rid
  · rw [urs_invalid _ _ _ _ hv]
    refine ⟨by simp, by simp, fun d0 h1 _ => absurd h1 (by simp [hv])⟩
  · rcases hf : find_one store (strLower rid) with _ | d0
    · rw [urs_notFound _ _ _ _ hv hf]
      exact ⟨by simp, by simp, fun d0 _ h2 => Option.noConfusion h2⟩
    · obtain ⟨h1, h2⟩ := urs_success store rid u t d0 hv hf
      refine ⟨by simp [h1], by simp [h1, hf], fun d0' _ hf' => ?_⟩
      obtain rfl : d0 = d0' := Option.some.inj hf'
      have hid : getField (applySet d0 (buildUpdateDoc u t)) "_id" =
          some (.vId (strLower rid)) := by
        rw [getField_applySet_build_id]
        exact find_one_some_id _ _ _ hf
      obtain ⟨hida, hidb⟩ := to_str_id_of_vId _ _ hid
      exact ⟨h1, hida, hidb⟩

/-- Witness for C2: a malformed id is rejected as InvalidArgument. -/
theorem C2_update_errors_witness :
    (update_request_status [] "zz" ⟨"asignado", none, none, none⟩ 0).1 =
      .error .invalidArgument :=
  (C2_update_errors [] "zz" ⟨"asignado", none, none, none⟩ 0).1.mpr (by decide)

/-- C10: whenever the status update fails, the stored request collection
after the call is exactly the collection before it. -/
theorem C10_atomic_failure (store : List Doc) (rid : String) (u : StatusUpdate) (t : Nat)
    (e : UpdErr) (h : (update_request_status store rid u t).1 = .error e) :
    (update_request_status store rid u t).2 = store := by
  cases hv : isValidObjectId rid
  · rw [urs_invalid _ _ _ _ hv]
  · rcases hf : find_one store (strLower rid) with _ | d0
    · rw [urs_notFound _ _ _ _ hv hf]
    · obtain ⟨h1, _⟩ := urs_success store rid u t d0 hv hf
      rw [h1] at h
      cases h

/-- Witness for C10: a failing call on a malformed id leaves the (empty)
collection untouched. -/
theorem C10_atomic_failure_witness :
    (update_request_status [] "zz" ⟨"asignado", none, none, none⟩ 0).2 = [] :=
  C10_atomic_failure [] "zz" ⟨"asignado", none, none, none⟩ 0 .invalidArgument (by decide)

/-- C3, amended: a successful update whose payload supplies only the
status leaves every stored field of the request untouched except
`status` itself and the always-stamped `updated_at`. -/
theorem C3_partial_patch (store : List Doc) (rid s : String) (t : Nat) (d0 : Doc)
    (hv : isValidObjectId rid = true) (hf : find_one store (strLower rid) = some d0) :
    ∃ d1, find_one (update_request_status store rid ⟨s, none, none, none⟩ t).2
          (strLower rid) = some d1 ∧
        getField d1 "status" = some (.vStr s) ∧
        getField d1 "updated_at" = some (.vTime t) ∧
        ∀ k, k ≠ "status" → k ≠ "updated_at" → getField d1 k = getField d0 k := by
  obtain ⟨h1, h2⟩ := urs_success store rid ⟨s, none, none, none⟩ t d0 hv hf
  refine ⟨_, h2, ?_, getField_applySet_build_updated_at _ _ _, ?_⟩
  · rw [buildUpdateDoc_status_only]
    show getField (setField (setField d0 "status" (.vStr s)) "updated_at" (.vTime t))
      "status" = _
    rw [getField_setField_ne _ _ _ _ (by decide), getField_setField_self]
  · intro k hk1 hk2
    rw [buildUpdateDoc_status_only]
    show getField (setField (setField d0 "status" (.vStr s)) "updated_at" (.vTime t)) k = _
    rw [getField_setField_ne _ _ _ _ hk2, getField_setField_ne _ _ _ _ hk1]

/-- Witness for C3: a concrete status-only update on a one-request
store. -/
theorem C3_partial_patch_witness :
    ∃ d1, find_one (update_request_status
          [[("_id", BVal.vId "aaaaaaaaaaaaaaaaaaaaaaaa"), ("status", BVal.vStr "pendiente"),
            ("last_location", BVal.vStr "Toledo")]]
          "aaaaaaaaaaaaaaaaaaaaaaaa" ⟨"asignado", none, none, none⟩ 9).2
          (strLower "aaaaaaaaaaaaaaaaaaaaaaaa") = some d1 ∧
        getField d1 "status" = some (.vStr "asignado") ∧
        getField d1 "updated_at" = some (.vTime 9) ∧
        ∀ k, k ≠ "status" → k ≠ "updated_at" →
          getField d1 k = getField [("_id", BVal.vId "aaaaaaaaaaaaaaaaaaaaaaaa"),
            ("status", BVal.vStr "pendiente"), ("last_location", BVal.vStr "Toledo")] k :=
  C3_partial_patch [[("_id", BVal.vId "aaaaaaaaaaaaaaaaaaaaaaaa"),
      ("status", BVal.vStr "pendiente"), ("last_location", BVal.vStr "Toledo")]]
    "aaaaaaaaaaaaaaaaaaaaaaaa" "asignado" 9
    [("_id", BVal.vId "aaaaaaaaaaaaaaaaaaaaaaaa"), ("status", BVal.vStr "pendiente"),
      ("last_location", BVal.vStr "Toledo")] (by decide) (by decide)

/-- Counterexample to C3 as stated: `updated_at` is a stored non-status
field, yet a status-only update rewrites it (5 becomes the server time
9), so not every non-status field stays byte-identical. -/
theorem C3_counterexample :
    (find_one (update_request_status
          [[("_id", BVal.vId "aaaaaaaaaaaaaaaaaaaaaaaa"), ("status", BVal.vStr "pendiente"),
            ("updated_at", BVal.vTime 5)]]
          "aaaaaaaaaaaaaaaaaaaaaaaa" ⟨"asignado", none, none, none⟩ 9).2
          "aaaaaaaaaaaaaaaaaaaaaaaa").map (fun d => getField d "updated_at") =
        some (some (BVal.vTime 9)) ∧
      getField [("_id", BVal.vId "aaaaaaaaaaaaaaaaaaaaaaaa"), ("status", BVal.vStr "pendiente"),
          ("updated_at", BVal.vTime 5)] "updated_at" = some (BVal.vTime 5) ∧
      ("updated_at" : String) ≠ "status" := by
  decide

/-- C4: every successful status update stamps `updated_at` on the stored
request with the server clock value supplied by the store, whatever the
payload (in particular the client `timestamp` field never feeds it). -/
theorem C4_updated_at_server (store : List Doc) (rid : String) (u : StatusUpdate) (t : Nat)
    (res : Option Doc) (h : (update_request_status store rid u t).1 = .ok res) :
    ∃ d1, find_one (update_request_status store rid u t).2 (strLower rid) = some d1 ∧
      getField d1 "updated_at" = some (.vTime t) := by
  cases hv : isValidObjectId rid
  · rw [urs_invalid _ _ _ _ hv] at h
    cases h
  · rcases hf : find_one store (strLower rid) with _ | d0
    · rw [urs_notFound _ _ _ _ hv hf] at h
      cases h
    · obtain ⟨_, h2⟩ := urs_success store rid u t d0 hv hf
      exact ⟨_, h2, getField_applySet_build_updated_at u t d0⟩

/-- Witness for C4: a successful update whose payload carries a client
timestamp of 77 still stamps the server time 9. -/
theorem C4_updated_at_server_witness :
    ∃ d1, find_one (update_request_status
          [[("_id", BVal.vId "aaaaaaaaaaaaaaaaaaaaaaaa"), ("status", BVal.vStr "pendiente"),
            ("updated_at", BVal.vTime 5)]]
          "aaaaaaaaaaaaaaaaaaaaaaaa" ⟨"asignado", none, none, some (some 77)⟩ 9).2
          (strLower "aaaaaaaaaaaaaaaaaaaaaaaa") = some d1 ∧
        getField d1 "updated_at" = some (.vTime 9) :=
  C4_updated_at_server [[("_id", BVal.vId "aaaaaaaaaaaaaaaaaaaaaaaa"),
      ("status", BVal.vStr "pendiente"), ("updated_at", BVal.vTime 5)]]
    "aaaaaaaaaaaaaaaaaaaaaaaa" ⟨"asignado", none, none, some (some 77)⟩ 9
    (some [("status", BVal.vStr "asignado"), ("updated_at", BVal.vTime 9),
      ("timestamp", BVal.vTime 77), ("id", BVal.vStr "aaaaaaaaaaaaaaaaaaaaaaaa")])
    (by decide)

/-- C5: the validator rejects any status outside the five values with a
field-level error naming `status`, and for every ordered pair of valid
states (same-state pairs included) the update operation moves a request
from the first to the second with no further transition restriction. -/
theorem C5_status_invariant :
    (∀ r s, getField r "status" = some (.vStr s) → s ∉ validStatuses →
      validateTransportRequest r = .error (trErrors r) ∧
        ("status", "literal_error") ∈ trErrors r) ∧
      (∀ store rid t s1 s2 d0, s1 ∈ validStatuses → s2 ∈ validStatuses →
        isValidObjectId rid = true → find_one store (strLower rid) = some d0 →
        getField d0 "status" = some (.vStr s1) →
        ∃ d1, find_one (update_request_status store rid ⟨s2, none, none, none⟩ t).2
            (strLower rid) = some d1 ∧
          getField d1 "status" = some (.vStr s2)) := by
  constructor
  · intro r s hget hnot
    have hchk : chkLiteralDefault r "status" validStatuses "pendiente" =
        .error ("status", "literal_error") := by
      unfold chkLiteralDefault
      rw [hget]
      simp [hnot]
    have hmem : ("status", "literal_error") ∈ trErrors r := by
      simp [trErrors, errOf, hchk]
    have hne : trErrors r ≠ [] := List.ne_nil_of_mem hmem
    exact ⟨by unfold validateTransportRequest; rw [if_neg hne], hmem⟩
  · intro store rid t s1 s2 d0 _ _ hv hf _
    obtain ⟨_, h2⟩ := urs_success store rid ⟨s2, none, none, none⟩ t d0 hv hf
    refine ⟨_, h2, ?_⟩
    rw [buildUpdateDoc_status_only]
    show getField (setField (setField d0 "status" (.vStr s2)) "updated_at" (.vTime t))
      "status" = _
    rw [getField_setField_ne _ _ _ _ (by decide), getField_setField_self]

/-- Witness for C5: a concrete invalid status is rejected naming
`status`, and a concrete pendiente-to-entregado transition succeeds. -/
theorem C5_status_invariant_witness :
    (validateTransportRequest [("status", BVal.vStr "volando")] =
        .error (trErrors [("status", BVal.vStr "volando")]) ∧
      ("status", "literal_error") ∈ trErrors [("status", BVal.vStr "volando")]) ∧
    (∃ d1, find_one (update_request_status
          [[("_id", BVal.vId "aaaaaaaaaaaaaaaaaaaaaaaa"), ("status", BVal.vStr "pendiente")]]
          "aaaaaaaaaaaaaaaaaaaaaaaa" ⟨"entregado", none, none, none⟩ 3).2
          (strLower "aaaaaaaaaaaaaaaaaaaaaaaa") = some d1 ∧
        getField d1 "status" = some (.vStr "entregado")) :=
  ⟨C5_status_invariant.1 [("status", BVal.vStr "volando")] "volando" (by decide) (by decide),
   C5_status_invariant.2 [[("_id", BVal.vId "aaaaaaaaaaaaaaaaaaaaaaaa"),
        ("status", BVal.vStr "pendiente")]]
      "aaaaaaaaaaaaaaaaaaaaaaaa" 3 "pendiente" "entregado"
      [("_id", BVal.vId "aaaaaaaaaaaaaaaaaaaaaaaa"), ("status", BVal.vStr "pendiente")]
      (by decide) (by decide) (by decide) (by decide) (by decide)⟩

theorem tr_missing (r : Doc) (k : String)
    (hk : k ∈ ["pickup_address", "pickup_city", "dropoff_address", "dropoff_city",
      "date_iso", "item_type", "size"])
    (hchk : chkRequiredStr r k = .error (k, "missing")) :
    (k, "missing") ∈ trErrors r := by
  simp only [List.mem_cons, List.not_mem_nil, or_false] at hk
  rcases hk with rfl | rfl | rfl | rfl | rfl | rfl | rfl <;> simp [trErrors, errOf, hchk]

/-- C7, amended: validation rejects a missing required field with a
`missing` error naming it; an empty string is rejected only where a
minimum length is declared (the user `name` and `phone` fields); the
required plain string fields of `TransportRequest` carry no minimum
length, so an all-empty-strings request passes validation. -/
theorem C7_required_fields :
    (∀ r k, k ∈ ["pickup_address", "pickup_city", "dropoff_address", "dropoff_city",
        "date_iso", "item_type", "size"] → getField r k = none →
      validateTransportRequest r = .error (trErrors r) ∧ (k, "missing") ∈ trErrors r) ∧
      (∀ r, getField r "name" = some (.vStr "") →
        validateTransportUser r = .error (tuErrors r) ∧
          ("name", "string_too_short") ∈ tuErrors r) ∧
      (∀ r, getField r "phone" = some (.vStr "") →
        validateTransportUser r = .error (tuErrors r) ∧
          ("phone", "string_too_short") ∈ tuErrors r) ∧
      (validateTransportRequest [("pickup_address", BVal.vStr ""), ("pickup_city", BVal.vStr ""),
        ("dropoff_address", BVal.vStr ""), ("dropoff_city", BVal.vStr ""),
        ("date_iso", BVal.vStr ""), ("item_type", BVal.vStr ""),
        ("size", BVal.vStr "")]).toOption.isSome = true := by
  refine ⟨?_, ?_, ?_, by decide⟩
  · intro r k hk hget
    have hmem : (k, "missing") ∈ trErrors r :=
      tr_missing r k hk (by unfold chkRequiredStr; rw [hget])
    exact ⟨by unfold validateTransportRequest; rw [if_neg (List.ne_nil_of_mem hmem)], hmem⟩
  · intro r hget
    have hchk : chkStrLen r "name" 2 120 = .error ("name", "string_too_short") := by
      unfold chkStrLen chkRequiredStr
      rw [hget]
      rfl
    have hmem : ("name", "string_too_short") ∈ tuErrors r := by
      simp [tuErrors, errOf, hchk]
    exact ⟨by unfold validateTransportUser; rw [if_neg (List.ne_nil_of_mem hmem)], hmem⟩
  · intro r hget
    have hchk : chkStrLen r "phone" 7 20 = .error ("phone", "string_too_short") := by
      unfold chkStrLen chkRequiredStr
      rw [hget]
      rfl
    have hmem : ("phone", "string_too_short") ∈ tuErrors r := by
      simp [tuErrors, errOf, hchk]
    exact ⟨by unfold validateTransportUser; rw [if_neg (List.ne_nil_of_mem hmem)], hmem⟩

/-- Witness for C7: the empty payload misses `pickup_address` and an
empty user name is too short. -/
theorem C7_required_fields_witness :
    (validateTransportRequest [] = .error (trErrors []) ∧
        ("pickup_address", "missing") ∈ trErrors []) ∧
      (validateTransportUser [("name", BVal.vStr "")] =
          .error (tuErrors [("name", BVal.vStr "")]) ∧
        ("name", "string_too_short") ∈ tuErrors [("name", BVal.vStr "")]) :=
  ⟨C7_required_fields.1 [] "pickup_address" (by decide) (by decide),
   C7_required_fields.2.1 [("name", BVal.vStr "")] (by decide)⟩

/-- Counterexample to C7 as stated: a `TransportRequest` whose required
string fields are all the empty string is accepted by validation, not
rejected. -/
theorem C7_counterexample :
    validateTransportRequest [("pickup_address", BVal.vStr ""), ("pickup_city", BVal.vStr ""),
        ("dropoff_address", BVal.vStr ""), ("dropoff_city", BVal.vStr ""),
        ("date_iso", BVal.vStr ""), ("item_type", BVal.vStr ""), ("size", BVal.vStr "")] =
      .ok { customer_id := none, pickup_address := "", pickup_city := "",
            dropoff_address := "", dropoff_city := "", date_iso := "", item_type := "",
            size := "", notes := none, whatsapp_number := none, status := "pendiente" } := by
  decide

/-- C8, amended: the link is the fixed base followed by the phone with
plus signs and spaces removed (other non-digit characters are kept),
then the percent-encoded interpolated message; the spec scenario yields
the base `https://wa.me/34600111222` and the fully encoded query text. -/
theorem C8_whatsapp_link :
    (∀ name phone pickup dropoff date item,
      whatsapp_link name phone pickup dropoff date item =
        ("https://wa.me/" ++ removeAllChar (removeAllChar phone '+') ' ') ++ "?text=" ++
          pyQuote (waMessage name item pickup dropoff date)) ∧
      (∀ phone, ((removeAllChar (removeAllChar phone '+') ' ').data.all
        (fun c => !(decide (c = '+')) && !(decide (c = ' ')))) = true) ∧
      whatsapp_link "Ana" "+34 600111222" "Madrid" "Valencia" "2024-06-01" "muebles" =
        "https://wa.me/34600111222?text=Hola%2C%20soy%20Ana.%20Quiero%20enviar%20muebles%20de%20Madrid%20a%20Valencia%20el%202024-06-01.%20%C2%BFDisponibilidad%3F" := by
  refine ⟨fun _ _ _ _ _ _ => rfl, ?_, by decide⟩
  intro phone
  rw [List.all_eq_true]
  intro c hc
  simp only [removeAllChar] at hc
  have h2 := List.mem_filter.1 hc
  have h1 := List.mem_filter.1 h2.1
  simp_all

/-- Counterexample to C8 as stated: on a phone written with dashes the
implementation keeps the dash (it strips only plus signs and spaces),
so the produced link differs from the all-non-digits-stripped link the
claim describes. -/
theorem C8_counterexample :
    whatsapp_link "Ana" "+34-600111222" "Madrid" "Valencia" "2024-06-01" "muebles" ≠
        specWhatsappUrl "Ana" "+34-600111222" "Madrid" "Valencia" "2024-06-01" "muebles" ∧
      removeAllChar (removeAllChar "+34-600111222" '+') ' ' = "34-600111222" ∧
      digitsOnly "+34-600111222" = "34600111222" := by
  decide

/-- C9: a validated user absent `is_active` gets `true`, a validated
request absent `status` gets `pendiente`, a supplied valid status is
kept, and the persisted request document carries exactly the validated
status. -/
theorem C9_defaults :
    (∀ r u, validateTransportUser r = .ok u → getField r "is_active" = none →
      u.is_active = true) ∧
      (∀ r q, validateTransportRequest r = .ok q → getField r "status" = none →
        q.status = "pendiente") ∧
      (∀ r q s, validateTransportRequest r = .ok q → getField r "status" = some (.vStr s) →
        s ∈ validStatuses → q.status = s) ∧
      (∀ store q i, (create_request store q i).2 =
          store ++ [setField (reqToDoc q) "_id" (.vId i)] ∧
        getField (setField (reqToDoc q) "_id" (.vId i)) "status" = some (.vStr q.status)) := by
  refine ⟨?_, ?_, ?_, ?_⟩
  · intro r u h hget
    unfold validateTransportUser at h
    by_cases he : tuErrors r = []
    · rw [if_pos he] at h
      have hu : u = _ := (Except.ok.inj h).symm
      subst hu
      have hchk : chkBoolDefault r "is_active" true = .ok true := by
        unfold chkBoolDefault
        rw [hget]
      show valOf true (chkBoolDefault r "is_active" true) = true
      rw [hchk]
      rfl
    · rw [if_neg he] at h
      exact Except.noConfusion h
  · intro r q h hget
    unfold validateTransportRequest at h
    by_cases he : trErrors r = []
    · rw [if_pos he] at h
      have hq : q = _ := (Except.ok.inj h).symm
      subst hq
      have hchk : chkLiteralDefault r "status" validStatuses "pendiente" = .ok "pendiente" := by
        unfold chkLiteralDefault
        rw [hget]
      show valOf "pendiente" (chkLiteralDefault r "status" validStatuses "pendiente") =
        "pendiente"
      rw [hchk]
      rfl
    · rw [if_neg he] at h
      exact Except.noConfusion h
  · intro r q s h hget hs
    unfold validateTransportRequest at h
    by_cases he : trErrors r = []
    · rw [if_pos he] at h
      have hq : q = _ := (Except.ok.inj h).symm
      subst hq
      have hchk : chkLiteralDefault r "status" validStatuses "pendiente" = .ok s := by
        unfold chkLiteralDefault
        rw [hget]
        simp [hs]
      show valOf "pendiente" (chkLiteralDefault r "status" validStatuses "pendiente") = s
      rw [hchk]
      rfl
    · rw [if_neg he] at h
      exact Except.noConfusion h
  · intro store q i
    exact ⟨rfl, rfl⟩

/-- Witness for C9: the spec scenario request validates to the pending
default. -/
theorem C9_defaults_witness :
    ({ customer_id := none, pickup_address := "Calle A", pickup_city := "Madrid",
       dropoff_address := "Calle B", dropoff_city := "Valencia",
       date_iso := "2024-06-01T10:00:00Z", item_type := "muebles", size := "grande",
       notes := none, whatsapp_number := none,
       status := "pendiente" } : TransportRequest).status = "pendiente" :=
  C9_defaults.2.1 [("pickup_address", BVal.vStr "Calle A"), ("pickup_city", BVal.vStr "Madrid"),
    ("dropoff_address", BVal.vStr "Calle B"), ("dropoff_city", BVal.vStr "Valencia"),
    ("date_iso", BVal.vStr "2024-06-01T10:00:00Z"), ("item_type", BVal.vStr "muebles"),
    ("size", BVal.vStr "grande")]
    { customer_id := none, pickup_address := "Calle A", pickup_city := "Madrid",
      dropoff_address := "Calle B", dropoff_city := "Valencia",
      date_iso := "2024-06-01T10:00:00Z", item_type := "muebles", size := "grande",
      notes := none, whatsapp_number := none, status := "pendiente" }
    (by decide) (by decide)


